import Mathlib

/-!
Verification of the token/claim subsystem of django-verification
(src/verification/models.py) against its specification.

Shallow embedding conventions:
* Datetimes are `Int` values measured in minutes (the only duration in the
  code, `KeyGroup.ttl`, is an integer number of minutes, added via
  `timedelta(minutes=ttl)`); nullable columns are `Option`.
* The database table of keys is an explicit `List Key`; Django's
  `Key.objects.get(...)` is a lookup in that list, `key.save()` on an
  existing row is `updateStore`, the first save of a fresh row appends it.
* Django field lookups ignore SQL NULL: `expires__lte=now` matches only
  rows whose `expires` is non-null and `<= now` (`lteMatches`), and
  `expires__gt=now` matches only non-null values `> now` (`gtMatches`).
* Python truthiness: `if self.group.ttl:` is false for `None` and for `0`
  (`ttlTruthy`); `not self.fact` is true for `None` and for the empty
  string (`factTruthy`).
* The generator registry lives in verification/generators.py, which is not
  part of the sources given (only models.py imports it), so it is modelled
  from the spec as a finite association list of names to opaque factory
  identifiers (`Registry`).
* Exceptions become `Except` results.  `claim` raises `VerificationError`
  with three distinct messages; the spec names them `NotFoundError`,
  `ExpiredError` and `AlreadyClaimedError`, so `ClaimError` has one
  constructor per message.
-/

/-- Factories are opaque: the claims never inspect the generated string, so
a factory is identified by a number and the string a generator produced is
passed to `Key.generate` as a parameter. -/
abbrev GenFactory := Nat

/-- Modelled from the spec: the GeneratorRegistry of verification/generators.py
(not under the given sources) — a process-wide map from generator names to
generator factories, populated by `register(name, factory)`. -/
structure Registry where
  entries : List (String × GenFactory)
deriving DecidableEq

/-- Modelled from the spec: `available()` returns the set of registered names. -/
def Registry.available (r : Registry) : List String :=
  r.entries.map Prod.fst

/-- Modelled from the spec: `get(name)` returns the factory registered under
`name` (identity-preserving lookup); in models.py it is only ever called
under the guard `name in available()`. -/
def Registry.get (r : Registry) (name : String) : Option GenFactory :=
  (r.entries.find? (fun e => e.fst == name)).map Prod.snd

/-- KeyGroup (models.py lines 81-98): name (primary key), ttl in minutes
(nullable), generator name, has_fact flag. -/
structure KeyGroup where
  name : String
  ttl : Option Int
  generator : String
  has_fact : Bool
deriving DecidableEq

/-- Python truthiness of the nullable integer `group.ttl`: `None` and `0`
are falsy, every other integer is truthy. -/
def ttlTruthy : Option Int → Bool
  | none => false
  | some t => t != 0

/-- Python truthiness of the nullable text `fact`: `None` and the empty
string are falsy. -/
def factTruthy : Option String → Bool
  | none => false
  | some s => s != ""

/-- A Key row (models.py lines 101-147 and 197-199): unique key string,
foreign key to its group (embedded as the group's current row), nullable
fact, pub_date (auto_now_add), nullable expires / claimed / claimed_by. -/
structure Key where
  key : String
  group : KeyGroup
  fact : Option String
  pub_date : Int
  expires : Option Int
  claimed : Option Int
  claimed_by : Option Nat
deriving DecidableEq

/-- Django lookup `expires__lte=now`: SQL NULL never matches. -/
def lteMatches : Option Int → Int → Bool
  | none, _ => false
  | some e, now => e ≤ now

/-- Django lookup `expires__gt=now`: SQL NULL never matches. -/
def gtMatches : Option Int → Int → Bool
  | none, _ => false
  | some e, now => now < e

/-- AbstractKey.save (models.py lines 163-169): after the underlying save,
if the group's ttl is truthy, set `expires = pub_date + timedelta(minutes=ttl)`
and save again.  Returns the row value as persisted. -/
def Key.save (k : Key) : Key :=
  match k.group.ttl with
  | some t => if t != 0 then { k with expires := some (k.pub_date + t) } else k
  | none => k

/-- KeyGroup.get_generator (models.py lines 96-98): returns the registered
factory when the name is among `generators.available()`, and falls off the
end of the function (returning None) otherwise. -/
def KeyGroup.get_generator (r : Registry) (g : KeyGroup) : Option GenFactory :=
  if g.generator ∈ Registry.available r then Registry.get r g.generator else none

/-- Errors of AbstractKey.clean (models.py lines 171-174): the
ValidationError for a missing mandatory fact (the spec's FactRequiredError). -/
inductive CleanError
  | factRequired
deriving DecidableEq

/-- AbstractKey.clean (models.py lines 171-174): raise ValidationError when
the group demands a fact and `not self.fact`. -/
def Key.clean (k : Key) : Except CleanError Unit :=
  if k.group.has_fact == true && !(factTruthy k.fact) then
    Except.error CleanError.factRequired
  else
    Except.ok ()

/-- Errors of AbstractKey.generate.  `unknownGenerator` is the spec's
UnknownGeneratorError; `typeErrorNoneNotCallable` is the Python TypeError
raised at line 180 when `group.get_generator()` returned None and the code
calls `Generator(seed=seed)` on it. -/
inductive GenError
  | unknownGenerator
  | typeErrorNoneNotCallable
deriving DecidableEq

/-- AbstractKey.generate (models.py lines 176-184): resolve the group's
generator, produce a key string (`keystring` stands for the string the
resolved generator produced), build `Key(group=group, key=keystring)` and
save it.  `now` is the auto_now_add timestamp of the first insert; the
insert appends the saved row to the store.  No validation (`clean`) is
invoked anywhere on this path. -/
def Key.generate (r : Registry) (group : KeyGroup) (now : Int) (keystring : String)
    (s : List Key) : Except GenError (List Key × Key) :=
  match KeyGroup.get_generator r group with
  | none => Except.error GenError.typeErrorNoneNotCallable
  | some _ =>
    let k0 : Key :=
      { key := keystring, group := group, fact := none, pub_date := now,
        expires := none, claimed := none, claimed_by := none }
    let k1 := Key.save k0
    Except.ok (s ++ [k1], k1)

/-- Errors raised by claim (models.py lines 30-46), one constructor per
distinct VerificationError message: key does not exist / key expired /
key has already been claimed. -/
inductive ClaimError
  | notFound
  | expired
  | alreadyClaimed
deriving DecidableEq

/-- The claim signal payload (signals.py key_claimed, sent at line 45 with
sender=key, claimant=claimant, group=key.group). -/
structure ClaimEvent where
  sender : Key
  claimant : Nat
  group : KeyGroup
deriving DecidableEq

/-- Database read `Key.objects.get(key=keystring)` (line 35): first row
whose unique key string matches, if any. -/
def findKey (s : List Key) (ks : String) : Option Key :=
  s.find? (fun k => k.key == ks)

/-- Database write `key.save()` on an existing row: replace the row with the
matching unique key string. -/
def updateStore (s : List Key) (k : Key) : List Key :=
  s.map (fun x => if x.key == k.key then k else x)

/-- The row value written by claim (lines 42-44): set claimed_by and
claimed, then run AbstractKey.save. -/
def claimedUpdate (k : Key) (claimant : Nat) (now : Int) : Key :=
  Key.save { k with claimed_by := some claimant, claimed := some now }

/-- claim (models.py lines 30-46) with the database passed explicitly:
look the key up (VerificationError if absent); if `key.expires` is set and
`<= now`, VerificationError expired; if `key.claimed` is set,
VerificationError already claimed; otherwise write claimed_by/claimed,
save, send the key_claimed signal and return the key.  The result pairs
the database after the call with the outcome. -/
def claim (s : List Key) (keystring : String) (claimant : Nat) (now : Int) :
    List Key × Except ClaimError (Key × ClaimEvent) :=
  match findKey s keystring with
  | none => (s, Except.error ClaimError.notFound)
  | some key =>
    if lteMatches key.expires now then
      (s, Except.error ClaimError.expired)
    else if key.claimed.isSome then
      (s, Except.error ClaimError.alreadyClaimed)
    else
      let key2 := claimedUpdate key claimant now
      (updateStore s key2,
        Except.ok (key2, { sender := key2, claimant := claimant, group := key2.group }))

/-- KeyMixin.expired (lines 50-53): `exclude(expires=None).filter(expires__lte=now)`. -/
def KeyMixin.expired (s : List Key) (now : Int) : List Key :=
  (s.filter (fun k => k.expires.isSome)).filter (fun k => lteMatches k.expires now)

/-- KeyMixin.available (lines 55-58):
`filter(Q(expires__gt=now)|Q(expires=None)).filter(claimed=None)`. -/
def KeyMixin.available (s : List Key) (now : Int) : List Key :=
  (s.filter (fun k => gtMatches k.expires now || k.expires.isNone)).filter
    (fun k => k.claimed.isNone)

/-- KeyMixin.claimed (lines 60-62): `exclude(claimed=None)`. -/
def KeyMixin.claimed (s : List Key) : List Key :=
  s.filter (fun k => k.claimed.isSome)

/-- KeyMixin.delete_expired (lines 64-67): `filter(expires__lte=now).delete()`;
the rows that remain are those the lookup does not match. -/
def KeyMixin.delete_expired (s : List Key) (now : Int) : List Key :=
  s.filter (fun k => !(lteMatches k.expires now))

/-! Interleaving model of concurrent claim calls.

The body of `claim` touches the shared database exactly twice: the read
`Key.objects.get(key=keystring)` at line 35 and the write `key.save()` at
line 44; the expiry and claimed checks in between run on the copy obtained
by the read.  There is no transaction, lock or conditional update in the
code, so two calls may interleave at those two points.  An invocation is a
small state machine advanced one database access at a time. -/

/-- Outcome of one claim invocation, as in `ClaimError` plus success. -/
inductive CResult
  | notFound
  | expired
  | alreadyClaimed
  | success
deriving DecidableEq

/-- Local state of one in-flight claim invocation: not yet read the row,
read it into a local copy, or finished with a result. -/
inductive InvState
  | start (claimant : Nat)
  | readDone (claimant : Nat) (localCopy : Key)
  | done (res : CResult)
deriving DecidableEq

/-- One atomic database access of a claim invocation: from `start`, the read
of line 35 (raising not-found immediately when absent); from `readDone`, the
checks of lines 38-41 on the local copy followed, when they pass, by the
write of lines 42-44.  A finished invocation does nothing. -/
def stepInv (s : List Key) (ks : String) (now : Int) : InvState → List Key × InvState
  | InvState.start c =>
    match findKey s ks with
    | none => (s, InvState.done CResult.notFound)
    | some k => (s, InvState.readDone c k)
  | InvState.readDone c k =>
    if lteMatches k.expires now then
      (s, InvState.done CResult.expired)
    else if k.claimed.isSome then
      (s, InvState.done CResult.alreadyClaimed)
    else
      let k2 := claimedUpdate k c now
      (updateStore s k2, InvState.done CResult.success)
  | InvState.done r => (s, InvState.done r)

/-- Run two claim invocations on the same key under a schedule: `false`
steps the first invocation, `true` the second, sharing the database. -/
def runSched (ks : String) (now : Int) :
    List Key → InvState → InvState → List Bool → List Key × InvState × InvState
  | s, a, b, [] => (s, a, b)
  | s, a, b, false :: rest =>
    let p := stepInv s ks now a
    runSched ks now p.1 p.2 b rest
  | s, a, b, true :: rest =>
    let p := stepInv s ks now b
    runSched ks now p.1 a p.2 rest

/-- Map a claim outcome to the invocation result it corresponds to. -/
def cresultOf : Except ClaimError (Key × ClaimEvent) → CResult
  | Except.error ClaimError.notFound => CResult.notFound
  | Except.error ClaimError.expired => CResult.expired
  | Except.error ClaimError.alreadyClaimed => CResult.alreadyClaimed
  | Except.ok _ => CResult.success

/-! Shared lemmas about the lookup helpers and the filter views. -/

lemma lteMatches_iff (e : Option Int) (now : Int) :
    lteMatches e now = true ↔ ∃ t, e = some t ∧ t ≤ now := by
  cases e <;> simp [lteMatches]

lemma gtMatches_iff (e : Option Int) (now : Int) :
    gtMatches e now = true ↔ ∃ t, e = some t ∧ now < t := by
  cases e <;> simp [gtMatches]

lemma mem_expired_iff (s : List Key) (now : Int) (k : Key) :
    k ∈ KeyMixin.expired s now ↔ k ∈ s ∧ ∃ t, k.expires = some t ∧ t ≤ now := by
  simp only [KeyMixin.expired, List.mem_filter, and_assoc]
  cases h : k.expires <;> simp [lteMatches, h]

lemma mem_available_iff (s : List Key) (now : Int) (k : Key) :
    k ∈ KeyMixin.available s now ↔
      k ∈ s ∧ (k.expires = none ∨ ∃ t, k.expires = some t ∧ now < t) ∧ k.claimed = none := by
  simp only [KeyMixin.available, List.mem_filter, and_assoc, Option.isNone_iff_eq_none,
    Bool.or_eq_true]
  cases h : k.expires <;> simp [gtMatches, h]

lemma mem_claimed_iff (s : List Key) (k : Key) :
    k ∈ KeyMixin.claimed s ↔ k ∈ s ∧ ∃ t, k.claimed = some t := by
  simp [KeyMixin.claimed, List.mem_filter, Option.isSome_iff_exists]

lemma mem_delete_expired_iff (s : List Key) (now : Int) (k : Key) :
    k ∈ KeyMixin.delete_expired s now ↔
      k ∈ s ∧ (k.expires = none ∨ ∃ t, k.expires = some t ∧ now < t) := by
  simp only [KeyMixin.delete_expired, List.mem_filter, Bool.not_eq_true']
  cases h : k.expires <;> simp [lteMatches, h]

lemma save_claimed (k : Key) : (Key.save k).claimed = k.claimed := by
  rcases h : k.group.ttl with _ | t <;> simp [Key.save, h]
  split <;> rfl

lemma save_claimed_by (k : Key) : (Key.save k).claimed_by = k.claimed_by := by
  rcases h : k.group.ttl with _ | t <;> simp [Key.save, h]
  split <;> rfl

lemma save_key_string (k : Key) : (Key.save k).key = k.key := by
  rcases h : k.group.ttl with _ | t <;> simp [Key.save, h]
  split <;> rfl

lemma save_group (k : Key) : (Key.save k).group = k.group := by
  rcases h : k.group.ttl with _ | t <;> simp [Key.save, h]
  split <;> rfl

lemma save_pub_date (k : Key) : (Key.save k).pub_date = k.pub_date := by
  rcases h : k.group.ttl with _ | t <;> simp [Key.save, h]
  split <;> rfl

/-! Concrete rows used by witnesses and counterexamples. -/

/-- A group with no ttl and no fact requirement. -/
def gNoTtl : KeyGroup := { name := "g", ttl := none, generator := "hex16", has_fact := false }

/-- A fresh, unclaimed, never-expiring key row. -/
def k1 : Key :=
  { key := "k1", group := gNoTtl, fact := none, pub_date := 0,
    expires := none, claimed := none, claimed_by := none }

/-- A row that is both past its expiry and claimed. -/
def kBoth : Key :=
  { key := "kb", group := gNoTtl, fact := none, pub_date := 0,
    expires := some 0, claimed := some 0, claimed_by := some 1 }

/-- A fresh row used by the disjointness witness. -/
def kFresh : Key :=
  { key := "kf0", group := gNoTtl, fact := none, pub_date := 0,
    expires := none, claimed := none, claimed_by := none }

/-- C1: claim(keystring, claimant) fails with the not-found error when no row
matches; otherwise, with the expired error when the row's expiry is set and
at or before now (regardless of its claimed state, so this check comes
first); otherwise with the already-claimed error when claimed is set;
otherwise it writes claimed = now and claimed_by = claimant, persists the
row, returns it, and the key_claimed signal carries that row, its group and
the claimant. -/
theorem claim_checks_in_order (s : List Key) (ks : String) (c : Nat) (now : Int) :
    (findKey s ks = none → claim s ks c now = (s, Except.error ClaimError.notFound)) ∧
    (∀ k, findKey s ks = some k → lteMatches k.expires now = true →
      claim s ks c now = (s, Except.error ClaimError.expired)) ∧
    (∀ k, findKey s ks = some k → lteMatches k.expires now = false → k.claimed.isSome = true →
      claim s ks c now = (s, Except.error ClaimError.alreadyClaimed)) ∧
    (∀ k, findKey s ks = some k → lteMatches k.expires now = false → k.claimed = none →
      claim s ks c now =
        (updateStore s (claimedUpdate k c now),
          Except.ok (claimedUpdate k c now,
            { sender := claimedUpdate k c now, claimant := c,
              group := (claimedUpdate k c now).group })) ∧
      (claimedUpdate k c now).claimed = some now ∧
      (claimedUpdate k c now).claimed_by = some c) := by
  refine ⟨?_, ?_, ?_, ?_⟩
  · intro h; simp [claim, h]
  · intro k hk hexp; simp [claim, hk, hexp]
  · intro k hk hexp hcl; simp [claim, hk, hexp, hcl]
  · intro k hk hexp hcl
    refine ⟨by simp [claim, hk, hexp, hcl], ?_, ?_⟩
    · rw [claimedUpdate, save_claimed]
    · rw [claimedUpdate, save_claimed_by]

/-- Witness for C1: claiming the fresh key k1 at time 5 for claimant 7
succeeds with the stated store update, result and signal payload. -/
theorem claim_checks_in_order_witness :
    claim [k1] "k1" 7 5 =
      (updateStore [k1] (claimedUpdate k1 7 5),
        Except.ok (claimedUpdate k1 7 5,
          { sender := claimedUpdate k1 7 5, claimant := 7,
            group := (claimedUpdate k1 7 5).group })) ∧
    (claimedUpdate k1 7 5).claimed = some 5 ∧
    (claimedUpdate k1 7 5).claimed_by = some 7 :=
  (claim_checks_in_order [k1] "k1" 7 5).2.2.2 k1 rfl rfl rfl

/-- C6: expired() returns exactly the stored rows with expiry set and at or
before now; available() exactly those with no claimed timestamp whose expiry
is absent or strictly after now; claimed() exactly those whose claimed
timestamp is set. -/
theorem queryset_views_exact (s : List Key) (now : Int) (k : Key) :
    (k ∈ KeyMixin.expired s now ↔ k ∈ s ∧ ∃ t, k.expires = some t ∧ t ≤ now) ∧
    (k ∈ KeyMixin.available s now ↔
      k ∈ s ∧ (k.expires = none ∨ ∃ t, k.expires = some t ∧ now < t) ∧ k.claimed = none) ∧
    (k ∈ KeyMixin.claimed s ↔ k ∈ s ∧ ∃ t, k.claimed = some t) :=
  ⟨mem_expired_iff s now k, mem_available_iff s now k, mem_claimed_iff s k⟩

/-- C7 counterexample: a row that was claimed and whose expiry has since
passed lies in both expired() and claimed(), so the three views do not have
pairwise non-overlapping conditions. -/
theorem expired_claimed_overlap_cx :
    kBoth ∈ KeyMixin.expired [kBoth] 1 ∧ kBoth ∈ KeyMixin.claimed [kBoth] := by
  decide

/-- C7 amended: available() is disjoint from expired() and from claimed();
the overlap permitted by the code is only between expired() and claimed(). -/
theorem available_disjoint_from_expired_and_claimed (s : List Key) (now : Int) (k : Key)
    (h : k ∈ KeyMixin.available s now) :
    k ∉ KeyMixin.expired s now ∧ k ∉ KeyMixin.claimed s := by
  obtain ⟨hs, hexp, hcl⟩ := (mem_available_iff s now k).mp h
  constructor
  · intro hmem
    obtain ⟨-, t, ht, hle⟩ := (mem_expired_iff s now k).mp hmem
    rcases hexp with h0 | ⟨u, hu, hgt⟩
    · rw [h0] at ht; exact Option.noConfusion ht
    · rw [hu] at ht; cases ht; omega
  · intro hmem
    obtain ⟨-, t, ht⟩ := (mem_claimed_iff s k).mp hmem
    rw [hcl] at ht; exact Option.noConfusion ht

/-- Witness for the amended C7: the fresh row kFresh is available and in
neither expired() nor claimed(). -/
theorem available_disjoint_witness :
    kFresh ∉ KeyMixin.expired [kFresh] 0 ∧ kFresh ∉ KeyMixin.claimed [kFresh] :=
  available_disjoint_from_expired_and_claimed [kFresh] 0 kFresh (by decide)

/-- C9: delete_expired() keeps exactly the stored rows whose expiry is
absent or strictly after now, removes exactly the rows expired() returns
(claimed or not — there is no claimed condition in either filter), every
stored row is either kept or expired, and the kept rows are an unchanged
sublist of the store. -/
theorem delete_expired_exact (s : List Key) (now : Int) (k : Key) :
    (k ∈ KeyMixin.delete_expired s now ↔
      k ∈ s ∧ (k.expires = none ∨ ∃ t, k.expires = some t ∧ now < t)) ∧
    (k ∈ KeyMixin.expired s now ↔ k ∈ s ∧ ∃ t, k.expires = some t ∧ t ≤ now) ∧
    (k ∈ s ↔ k ∈ KeyMixin.delete_expired s now ∨ k ∈ KeyMixin.expired s now) ∧
    (KeyMixin.delete_expired s now).Sublist s := by
  refine ⟨mem_delete_expired_iff s now k, mem_expired_iff s now k, ?_, List.filter_sublist s⟩
  constructor
  · intro hs
    rcases h : k.expires with _ | t
    · exact Or.inl ((mem_delete_expired_iff s now k).mpr ⟨hs, Or.inl h⟩)
    · by_cases hle : t ≤ now
      · exact Or.inr ((mem_expired_iff s now k).mpr ⟨hs, t, h, hle⟩)
      · exact Or.inl ((mem_delete_expired_iff s now k).mpr ⟨hs, Or.inr ⟨t, h, by omega⟩⟩)
  · rintro (hmem | hmem)
    · exact ((mem_delete_expired_iff s now k).mp hmem).1
    · exact ((mem_expired_iff s now k).mp hmem).1

/-- C10: whenever claim fails (not found, expired, or already claimed), the
store after the call is exactly the store before it — every raise happens
before the single write. -/
theorem claim_failure_leaves_store_unchanged (s : List Key) (ks : String) (c : Nat)
    (now : Int) (e : ClaimError) (h : (claim s ks c now).2 = Except.error e) :
    (claim s ks c now).1 = s := by
  unfold claim at h ⊢
  rcases hf : findKey s ks with _ | k
  · rfl
  · by_cases h1 : lteMatches k.expires now = true
    · simp [h1]
    · rw [Bool.not_eq_true] at h1
      by_cases h2 : k.claimed.isSome = true
      · simp [h1, h2]
      · rw [Bool.not_eq_true] at h2
        rw [hf] at h
        simp [h1, h2] at h

/-- Witness for C10: a claim on an empty store fails with not-found and the
store stays empty. -/
theorem claim_failure_witness : (claim [] "nope" 1 0).1 = ([] : List Key) :=
  claim_failure_leaves_store_unchanged [] "nope" 1 0 ClaimError.notFound rfl

/-! Lemmas about generator resolution. -/

lemma get_generator_eq_get_of_mem (r : Registry) (g : KeyGroup)
    (h : g.generator ∈ Registry.available r) :
    KeyGroup.get_generator r g = Registry.get r g.generator := by
  unfold KeyGroup.get_generator
  rw [if_pos h]

lemma get_isSome_of_mem (r : Registry) (name : String)
    (h : name ∈ Registry.available r) : (Registry.get r name).isSome = true := by
  obtain ⟨e, he, hfst⟩ := List.mem_map.mp h
  have hfind : (r.entries.find? (fun x => x.fst == name)).isSome = true := by
    rw [List.find?_isSome]
    exact ⟨e, he, by simp [hfst]⟩
  obtain ⟨x, hx⟩ := Option.isSome_iff_exists.mp hfind
  simp [Registry.get, hx]

lemma get_generator_isSome_of_mem (r : Registry) (g : KeyGroup)
    (h : g.generator ∈ Registry.available r) :
    ∃ f, KeyGroup.get_generator r g = some f := by
  rw [get_generator_eq_get_of_mem r g h]
  exact Option.isSome_iff_exists.mp (get_isSome_of_mem r g.generator h)

lemma save_fact (k : Key) : (Key.save k).fact = k.fact := by
  rcases h : k.group.ttl with _ | t <;> simp [Key.save, h]
  split <;> rfl

/-! More concrete rows for witnesses and counterexamples. -/

/-- A registry holding one generator factory under the name hex16. -/
def rH : Registry := { entries := [("hex16", 0)] }

/-- A group whose ttl is set to 0 minutes. -/
def gZero : KeyGroup := { name := "z", ttl := some 0, generator := "hex16", has_fact := false }

/-- The row generate persists for gZero at time 3: expiry left unset. -/
def kz : Key :=
  { key := "kz", group := gZero, fact := none, pub_date := 3,
    expires := none, claimed := none, claimed_by := none }

/-- A group with a 60-minute ttl. -/
def g60 : KeyGroup := { name := "g60", ttl := some 60, generator := "hex16", has_fact := false }

/-- A group that demands a fact. -/
def gFact : KeyGroup := { name := "f", ttl := none, generator := "hex16", has_fact := true }

/-- The factless row generate persists for gFact. -/
def kf : Key :=
  { key := "kf", group := gFact, fact := none, pub_date := 0,
    expires := none, claimed := none, claimed_by := none }

/-- A registry with nothing registered. -/
def rEmpty : Registry := { entries := [] }

/-- A group naming a generator that was never registered. -/
def gUnknown : KeyGroup := { name := "u", ttl := none, generator := "nope", has_fact := false }

/-- C3 counterexample: for a group whose ttl is set to the integer 0, the
generated token's expiry is left unset (Python truthiness of `if
self.group.ttl:`), not set to createdAt + 0 as the claim requires for every
integer ttl. -/
theorem generate_ttl_zero_expiry_unset_cx :
    gZero.ttl = some 0 ∧
    Key.generate rH gZero 3 "kz" [] = Except.ok ([kz], kz) ∧
    kz.expires = none :=
  ⟨rfl, rfl, rfl⟩

/-- C3 amended: for a group with a nonzero ttl the generated token's expiry
equals its pub_date (= createdAt = now) plus the ttl exactly; when the ttl
is absent, or set to 0 (which Python truthiness treats the same as absent),
the expiry is left unset. -/
theorem generate_expiry_from_truthy_ttl (r : Registry) (g : KeyGroup) (now : Int)
    (ks : String) (s : List Key) (hreg : g.generator ∈ Registry.available r) :
    (∀ t, g.ttl = some t → t ≠ 0 →
      (Key.generate r g now ks s).map (fun p => (p.2.expires, p.2.pub_date)) =
        Except.ok (some (now + t), now)) ∧
    (g.ttl = none →
      (Key.generate r g now ks s).map (fun p => p.2.expires) = Except.ok none) ∧
    (g.ttl = some 0 →
      (Key.generate r g now ks s).map (fun p => p.2.expires) = Except.ok none) := by
  obtain ⟨f, hf⟩ := get_generator_isSome_of_mem r g hreg
  refine ⟨?_, ?_, ?_⟩
  · intro t ht hnz
    simp [Key.generate, hf, Key.save, ht, hnz, Except.map]
  · intro ht
    simp [Key.generate, hf, Key.save, ht, Except.map]
  · intro ht
    simp [Key.generate, hf, Key.save, ht, Except.map]

/-- Witness for the amended C3: generating for the 60-minute group at time 5
yields expiry 65 and pub_date 5. -/
theorem generate_expiry_from_truthy_ttl_witness :
    (Key.generate rH g60 5 "kw" []).map (fun p => (p.2.expires, p.2.pub_date)) =
      Except.ok (some (5 + 60), 5) :=
  (generate_expiry_from_truthy_ttl rH g60 5 "kw" [] (by decide)).1 60 rfl (by decide)

/-- C4 counterexample: generate on a group with has_fact true and no fact
succeeds and persists the factless row — no FactRequiredError is raised,
because generate never invokes clean. -/
theorem generate_without_fact_persists_cx :
    gFact.has_fact = true ∧
    Key.generate rH gFact 0 "kf" [] = Except.ok ([kf], kf) ∧
    kf.fact = none :=
  ⟨rfl, rfl, rfl⟩

/-- C4 amended: the validation hook clean does reject a token whose group
demands a fact when the fact is falsy (absent or empty), but generate
performs no validation: for any registered group it persists and returns a
token whose fact is absent, without error, even when has_fact is true. -/
theorem clean_rejects_missing_fact_generate_skips_validation :
    (∀ k : Key, k.group.has_fact = true → factTruthy k.fact = false →
      Key.clean k = Except.error CleanError.factRequired) ∧
    (∀ (r : Registry) (g : KeyGroup) (now : Int) (ks : String) (s : List Key),
      g.generator ∈ Registry.available r →
      (Key.generate r g now ks s).map (fun p => p.2.fact) = Except.ok none) := by
  constructor
  · intro k h1 h2
    simp [Key.clean, h1, h2]
  · intro r g now ks s hreg
    obtain ⟨f, hf⟩ := get_generator_isSome_of_mem r g hreg
    simp [Key.generate, hf, save_fact, Except.map]

/-- Witness for the amended C4: clean rejects the factless row kf, while
generate persists a factless row for the same fact-demanding group. -/
theorem clean_rejects_missing_fact_witness :
    Key.clean kf = Except.error CleanError.factRequired ∧
    (Key.generate rH gFact 1 "kf2" []).map (fun p => p.2.fact) = Except.ok none :=
  ⟨clean_rejects_missing_fact_generate_skips_validation.1 kf rfl rfl,
    clean_rejects_missing_fact_generate_skips_validation.2 rH gFact 1 "kf2" [] (by decide)⟩

/-- C5 counterexample: with an unregistered generator name, get_generator
returns None normally instead of raising UnknownGeneratorError, and generate
then fails with the generic TypeError from calling None — not with the
spec's UnknownGeneratorError. -/
theorem get_generator_returns_none_cx :
    KeyGroup.get_generator rEmpty gUnknown = none ∧
    Key.generate rEmpty gUnknown 0 "k" [] = Except.error GenError.typeErrorNoneNotCallable ∧
    GenError.typeErrorNoneNotCallable ≠ GenError.unknownGenerator :=
  ⟨rfl, rfl, by decide⟩

/-- C5 amended: for an unregistered name get_generator returns None (raising
nothing), and generate on such a group fails with the TypeError from calling
None; for a registered name get_generator returns the registry's entry for
that name, which is present. -/
theorem get_generator_lookup_behavior (r : Registry) (g : KeyGroup) :
    (g.generator ∉ Registry.available r →
      KeyGroup.get_generator r g = none ∧
      ∀ (now : Int) (ks : String) (s : List Key),
        Key.generate r g now ks s = Except.error GenError.typeErrorNoneNotCallable) ∧
    (g.generator ∈ Registry.available r →
      KeyGroup.get_generator r g = Registry.get r g.generator ∧
      (Registry.get r g.generator).isSome = true) := by
  constructor
  · intro h
    have hg : KeyGroup.get_generator r g = none := by
      unfold KeyGroup.get_generator
      rw [if_neg h]
    exact ⟨hg, fun now ks s => by simp [Key.generate, hg]⟩
  · intro h
    exact ⟨get_generator_eq_get_of_mem r g h, get_isSome_of_mem r g.generator h⟩

/-- Witness for the amended C5: both branches at concrete registries — the
empty registry with the unknown name, and rH with the registered hex16. -/
theorem get_generator_lookup_witness :
    (KeyGroup.get_generator rEmpty gUnknown = none ∧
      Key.generate rEmpty gUnknown 2 "y" [] = Except.error GenError.typeErrorNoneNotCallable) ∧
    (KeyGroup.get_generator rH g60 = Registry.get rH g60.generator ∧
      (Registry.get rH g60.generator).isSome = true) := by
  constructor
  · have h := (get_generator_lookup_behavior rEmpty gUnknown).1 (by decide)
    exact ⟨h.1, h.2 2 "y" []⟩
  · exact (get_generator_lookup_behavior rH g60).2 (by decide)

/-! Rows for the expiry-immutability claim. -/

/-- The row generate persists for the 60-minute group g60 at time 0. -/
def k8 : Key :=
  { key := "k8", group := g60, fact := none, pub_date := 0,
    expires := some 60, claimed := none, claimed_by := none }

/-- The group row g60 after an administrator raises its ttl to 120. -/
def g60changed : KeyGroup :=
  { name := "g60", ttl := some 120, generator := "hex16", has_fact := false }

/-- The same token row k8 once its foreign-keyed group carries ttl 120; its
stored expiry is still the creation-time value 60. -/
def k8afterTtlChange : Key := { k8 with group := g60changed }

/-- C8 counterexample: k8 is generated with expiry 60 (pub_date 0 + ttl 60);
after the group's ttl changes to 120, claiming the token — which re-runs
save — rewrites its stored expiry to 120. -/
theorem claim_resave_changes_expiry_cx :
    Key.generate rH g60 0 "k8" [] = Except.ok ([k8], k8) ∧
    k8afterTtlChange.expires = some 60 ∧
    (claim [k8afterTtlChange] "k8" 1 10).2.map (fun p => p.1.expires) =
      Except.ok (some 120) :=
  ⟨rfl, rfl, rfl⟩

/-- C8 amended: every save re-derives the expiry from pub_date and the
group's current ttl — setting it to pub_date + ttl when the ttl is truthy
and leaving it untouched when the ttl is absent or zero.  Consequently the
stored expiry survives a claim (whose save re-runs this derivation) only
when the row still satisfies the creation-time derivation for its group's
current ttl; a ttl change before the next save does alter the stored
expiry. -/
theorem save_rederives_expiry (k : Key) (c : Nat) (now : Int) :
    (∀ t, k.group.ttl = some t → t ≠ 0 → (Key.save k).expires = some (k.pub_date + t)) ∧
    (k.group.ttl = none → (Key.save k).expires = k.expires) ∧
    (k.group.ttl = some 0 → (Key.save k).expires = k.expires) ∧
    ((∀ t, k.group.ttl = some t → t ≠ 0 → k.expires = some (k.pub_date + t)) →
      (claimedUpdate k c now).expires = k.expires) := by
  refine ⟨?_, ?_, ?_, ?_⟩
  · intro t ht hnz
    simp [Key.save, ht, hnz]
  · intro ht
    simp [Key.save, ht]
  · intro ht
    simp [Key.save, ht]
  · intro hcons
    unfold claimedUpdate
    rcases h : k.group.ttl with _ | t
    · simp [Key.save, h]
    · by_cases hz : t = 0
      · subst hz
        simp [Key.save, h]
      · simp [Key.save, h, hz]
        exact (hcons t h hz).symm

/-- Witness for the amended C8: claiming k8 while its group still has the
creation-time ttl leaves the stored expiry unchanged. -/
theorem save_rederives_expiry_witness :
    (claimedUpdate k8 1 10).expires = k8.expires :=
  (save_rederives_expiry k8 1 10).2.2.2 (by
    intro t ht _
    have h60 : (60 : Int) = t := by simpa [k8, g60] using ht
    subst h60
    decide)

/-! The concurrency claim. -/

/-- The store after the race below: the second writer's row wins, the first
writer's update is lost. -/
def k1cb2 : Key :=
  { key := "k1", group := gNoTtl, fact := none, pub_date := 0,
    expires := none, claimed := some 5, claimed_by := some 2 }

/-- Running a claim invocation alone for its two database accesses produces
exactly the store and outcome of `claim`: the interleaving model and the
direct embedding agree when there is no interleaving. -/
lemma stepInv_two_steps_eq_claim (s : List Key) (ks : String) (c : Nat) (now : Int) :
    stepInv (stepInv s ks now (InvState.start c)).1 ks now
        (stepInv s ks now (InvState.start c)).2 =
      ((claim s ks c now).1, InvState.done (cresultOf (claim s ks c now).2)) := by
  rcases hf : findKey s ks with _ | k
  · simp [stepInv, claim, hf, cresultOf]
  · simp only [stepInv, claim, hf]
    by_cases h1 : lteMatches k.expires now = true
    · simp [h1, cresultOf, stepInv]
    · rw [Bool.not_eq_true] at h1
      by_cases h2 : k.claimed.isSome = true
      · simp [h1, h2, cresultOf, stepInv]
      · rw [Bool.not_eq_true] at h2
        simp [h1, h2, cresultOf, stepInv]

/-- C2: the code has no transaction, lock or conditional update around the
read-check-write of claim, so under the interleaving both-read-then-both-
write on the fresh unclaimed key k1, both invocations finish successfully
and the second write overwrites the first (claimed_by ends as claimant 2):
a double-claim the claim asserts to be impossible. -/
theorem concurrent_claims_both_succeed :
    runSched "k1" 5 [k1] (InvState.start 1) (InvState.start 2) [false, true, false, true] =
      ([k1cb2], InvState.done CResult.success, InvState.done CResult.success) := by
  decide
